import Mathlib

/-!
Verification development for the linux-media-rs crate: a shallow embedding of
the topology acquisition protocol, the error taxonomy, the flag/record
decoders, the entity enumeration cursor and the request error paths, together
with theorems settling the specification claims.

Machine integers are modelled as Nat; ioctl calls are modelled by explicit
mock-device response values; Rust panics (assert_eq!, unreachable!, unwrap)
are modelled as a distinct `panic` outcome, separate from returned errors.
-/

namespace LinuxMedia

/-! ### Raw OS error codes (errno values, from libc) -/

def EBUSY : Nat := 16
def ENOTTY : Nat := 25
def ENOENT : Nat := 2
def ENOMEM : Nat := 12
def EINVAL : Nat := 22
def EIO : Nat := 5

namespace media

/-! ### Kernel ABI constants, mirroring the linux-media-sys crate
(generated from the kernel uapi media.h headers). -/

/-- Ioctl request identifier for MEDIA_IOC_G_TOPOLOGY; the numeric value is an
opaque tag, never inspected by the code under verification. -/
def MEDIA_IOC_G_TOPOLOGY : Nat := 0x7c03
/-- Ioctl request identifier for MEDIA_IOC_ENUM_ENTITIES (opaque tag). -/
def MEDIA_IOC_ENUM_ENTITIES : Nat := 0x7c01
/-- Ioctl request identifier for MEDIA_REQUEST_IOC_QUEUE (opaque tag). -/
def MEDIA_REQUEST_IOC_QUEUE : Nat := 0x7c80
/-- Ioctl request identifier for MEDIA_REQUEST_IOC_REINIT (opaque tag). -/
def MEDIA_REQUEST_IOC_REINIT : Nat := 0x7c81

def MEDIA_LNK_FL_ENABLED : Nat := 1
def MEDIA_LNK_FL_IMMUTABLE : Nat := 2
def MEDIA_LNK_FL_DYNAMIC : Nat := 4
/-- Mask of the link-type discriminant field inside media_v2_link.flags. -/
def MEDIA_LNK_FL_LINK_TYPE : Nat := 0xf <<< 28
def MEDIA_LNK_FL_DATA_LINK : Nat := 0 <<< 28
def MEDIA_LNK_FL_INTERFACE_LINK : Nat := 1 <<< 28
def MEDIA_LNK_FL_ANCILLARY_LINK : Nat := 2 <<< 28

def MEDIA_PAD_FL_SINK : Nat := 1
def MEDIA_PAD_FL_SOURCE : Nat := 2
def MEDIA_PAD_FL_MUST_CONNECT : Nat := 4

def MEDIA_ENT_FL_DEFAULT : Nat := 1
def MEDIA_ENT_FL_CONNECTOR : Nat := 2

/-- Reserved high bit OR-ed onto an entity id to ask MEDIA_IOC_ENUM_ENTITIES
for the first entity whose id is strictly greater than the cleared value. -/
def MEDIA_ENT_ID_FLAG_NEXT : Nat := 1 <<< 31

/-- Packed kernel version 4.19.0, the threshold used by the capability gates. -/
def KERNEL_VERSION_4_19_0 : Nat := (4 <<< 16) ||| (19 <<< 8) ||| 0

/-- Kernel macro MEDIA_V2_ENTITY_HAS_FLAGS: the entity flags field exists at
this packed media ABI version (mirrors the uapi macro, a >= comparison on the
encoded form). -/
def MEDIA_V2_ENTITY_HAS_FLAGS (media_version : Nat) : Bool :=
  decide (KERNEL_VERSION_4_19_0 ≤ media_version)

/-- Kernel macro MEDIA_V2_PAD_HAS_INDEX: the pad index field exists at this
packed media ABI version. -/
def MEDIA_V2_PAD_HAS_INDEX (media_version : Nat) : Bool :=
  decide (KERNEL_VERSION_4_19_0 ≤ media_version)

end media

/-! ### version.rs -/

/-- Version information wrapper, mirroring src/version.rs. Fields are u8 in
the source; the u8 range appears as explicit hypotheses in the theorems. -/
structure Version where
  major : Nat
  minor : Nat
  patch : Nat
deriving Repr, DecidableEq

/-- From<u32> for Version: bits 16..23, 8..15, 0..7 are major, minor, patch.
The trailing `% 256` is the `as u8` truncating cast of the source. -/
def Version.fromU32 (ver : Nat) : Version :=
  { major := ((ver &&& (0xFF <<< 16)) >>> 16) % 256
    minor := ((ver &&& (0xFF <<< 8)) >>> 8) % 256
    patch := ((ver &&& (0xFF <<< 0)) >>> 0) % 256 }

/-- Into<u32> for Version: (major << 16) | (minor << 8) | patch. -/
def Version.toU32 (v : Version) : Nat :=
  ((v.major <<< 16) ||| (v.minor <<< 8)) ||| v.patch

/-! ### error.rs -/

/-- Error enum mirroring src/error.rs. Payloads keep the fields relevant to
classification: the raw fd, the raw OS error code, and the ioctl identifier.
The io::Error payload of the Ioctl variant is represented by its raw OS code.
`LinkTypeParseError` is the constructor built by media_link.rs (the error.rs
revision in the tree lists `LinkFlagsParseError` instead; both are kept). -/
inductive Error where
  | Io (path : String)
  | FileNotFound (path : String)
  | Ioctl (fd : Int) (code : Nat) (api : Nat)
  | NotSupportedIoctl (fd : Int) (code : Nat) (api : Nat)
  | DeviceIsBusy (fd : Int) (code : Nat) (api : Nat)
  | RequestIsAlreadyQueued (fd : Int) (code : Nat) (api : Nat)
  | RequestNotContainBuffers (fd : Int) (code : Nat) (api : Nat)
  | OutOfMemory (fd : Int) (code : Nat) (api : Nat)
  | RequestHasInvalidData (fd : Int) (code : Nat) (api : Nat)
  | HardwareBadState (fd : Int) (code : Nat) (api : Nat)
  | InterfaceTypeParseError (fromVal : Nat)
  | EntityFunctionsParseError (fromVal : Nat)
  | EntityFlagsParseError (fromVal : Nat)
  | PadFlagsParseError (fromVal : Nat)
  | LinkFlagsParseError (fromVal : Nat)
  | LinkTypeParseError (fromVal : Nat)
deriving Repr, DecidableEq

/-- Error::ioctl_error: classify a raw ioctl failure code
(src/error.rs lines 85-101). -/
def Error.ioctl_error (fd : Int) (code : Nat) (api : Nat) : Error :=
  if code = EBUSY then .DeviceIsBusy fd code api
  else if code = ENOTTY then .NotSupportedIoctl fd code api
  else .Ioctl fd code api

/-- Rust panics (assert_eq!, unreachable!, Result::unwrap) modelled as
structured payloads carrying the values interpolated into the panic message. -/
inductive PanicInfo where
  | assertVersionMismatch (expected actual : Nat)
  | unknownLinkType (discriminant : Nat)
  | unwrapError (e : Error)
deriving Repr, DecidableEq

/-- Outcome of an operation that can return a value, return an error, or
abort the thread by panicking. -/
inductive Outcome (α : Type) where
  | ok (t : α)
  | err (e : Error)
  | panic (p : PanicInfo)
deriving Repr, DecidableEq

/-! ### request.rs -/

/-- The map_err closure inside Request::queue (src/request.rs lines 61-75):
re-classifies only the generic `Ioctl` variant by its raw OS code; every
other variant passes through unchanged. -/
def Request.queueMapErr (fd : Int) (err : Error) : Error :=
  match err with
  | .Ioctl _ code _ =>
    if code = EBUSY then .RequestIsAlreadyQueued fd code media.MEDIA_REQUEST_IOC_QUEUE
    else if code = ENOENT then .RequestNotContainBuffers fd code media.MEDIA_REQUEST_IOC_QUEUE
    else if code = ENOMEM then .OutOfMemory fd code media.MEDIA_REQUEST_IOC_QUEUE
    else if code = EINVAL then .RequestHasInvalidData fd code media.MEDIA_REQUEST_IOC_QUEUE
    else if code = EIO then .HardwareBadState fd code media.MEDIA_REQUEST_IOC_QUEUE
    else err
  | _ => err

/-- The error produced by Request::queue when the MEDIA_REQUEST_IOC_QUEUE
ioctl fails with raw OS code `code`: the ioctl! macro first classifies via
Error::ioctl_error, then queue applies its map_err closure. -/
def Request.queueError (fd : Int) (code : Nat) : Error :=
  Request.queueMapErr fd (Error.ioctl_error fd code media.MEDIA_REQUEST_IOC_QUEUE)

/-- The error produced by Request::init (reinit) when the
MEDIA_REQUEST_IOC_REINIT ioctl fails with raw OS code `code`
(src/request.rs line 46: the bare ioctl! macro, no re-mapping). -/
def Request.initError (fd : Int) (code : Nat) : Error :=
  Error.ioctl_error fd code media.MEDIA_REQUEST_IOC_REINIT

/-- Modelled from the spec: the set of raw OS error codes the
MEDIA_REQUEST_IOC_REINIT ioctl can return. This is kernel behavior, outside
the repository; spec section 4.7 and the doc comment on Request::init state
that a still-queued request is the only failure, reported as EBUSY. -/
def reinitRaisableCodes : List Nat := [EBUSY]

/-! ### Flag decoders (media_pad.rs, media_entity.rs, media_link.rs) -/

inductive MediaPadFlags where
  | Sink
  | Source
  | SinkMustConnect
  | SourceMustConnect
deriving Repr, DecidableEq

/-- TryFrom<u32> for MediaPadFlags (src/media_pad.rs lines 26-46). -/
def MediaPadFlags.tryFrom (v : Nat) : Except Error MediaPadFlags :=
  if v &&& media.MEDIA_PAD_FL_SINK ≠ 0 then
    if v &&& media.MEDIA_PAD_FL_MUST_CONNECT ≠ 0 then .ok .SinkMustConnect
    else .ok .Sink
  else if v &&& media.MEDIA_PAD_FL_SOURCE ≠ 0 then
    if v &&& media.MEDIA_PAD_FL_MUST_CONNECT ≠ 0 then .ok .SourceMustConnect
    else .ok .Source
  else .error (.PadFlagsParseError v)

inductive MediaEntityFlags where
  | Default
  | Connector
deriving Repr, DecidableEq

/-- TryFrom<u32> for MediaEntityFlags (src/media_entity.rs lines 140-150):
an exact match on the two recognized constants. -/
def MediaEntityFlags.tryFrom (v : Nat) : Except Error MediaEntityFlags :=
  if v = media.MEDIA_ENT_FL_DEFAULT then .ok .Default
  else if v = media.MEDIA_ENT_FL_CONNECTOR then .ok .Connector
  else .error (.EntityFlagsParseError v)

/-- bitflags-generated MediaLinkFlags: a validated set of the ENABLED,
IMMUTABLE and DYNAMIC bits. -/
structure MediaLinkFlags where
  bits : Nat
deriving Repr, DecidableEq

/-- bitflags from_bits: Some iff no bit outside ENABLED|IMMUTABLE|DYNAMIC is
set. `0xFFFFFFF8` is the u32 complement of those three bits. -/
def MediaLinkFlags.from_bits (v : Nat) : Option MediaLinkFlags :=
  if v &&& 0xFFFFFFF8 = 0 then some ⟨v⟩ else none

/-- TryFrom<u32> for MediaLinkFlags (src/media_link.rs lines 26-32): the
link-type discriminant field is masked off first (`0x0FFFFFFF` is the u32
complement of MEDIA_LNK_FL_LINK_TYPE); failure builds LinkTypeParseError
carrying the original raw value. -/
def MediaLinkFlags.tryFrom (v : Nat) : Except Error MediaLinkFlags :=
  match MediaLinkFlags.from_bits (v &&& 0x0FFFFFFF) with
  | some f => .ok f
  | none => .error (.LinkTypeParseError v)

/-! ### Raw kernel records (media_v2_* structs). String buffers are modelled
as already-extracted strings: the null-terminated fixed-buffer decoding
carries no protocol logic relevant to the claims. -/

structure RawEntity where
  id : Nat
  name : String
  function : Nat
  flags : Nat
deriving Repr, DecidableEq

def RawEntity.zero : RawEntity := ⟨0, "", 0, 0⟩

structure RawInterface where
  id : Nat
  intf_type : Nat
  major : Nat
  minor : Nat
deriving Repr, DecidableEq

def RawInterface.zero : RawInterface := ⟨0, 0, 0, 0⟩

structure RawPad where
  id : Nat
  entity_id : Nat
  flags : Nat
  index : Nat
deriving Repr, DecidableEq

def RawPad.zero : RawPad := ⟨0, 0, 0, 0⟩

structure RawLink where
  id : Nat
  source_id : Nat
  sink_id : Nat
  flags : Nat
deriving Repr, DecidableEq

def RawLink.zero : RawLink := ⟨0, 0, 0, 0⟩

/-! ### media_pad.rs: MediaPad -/

structure MediaPad where
  id : Nat
  entity_id : Nat
  flags : MediaPadFlags
  index : Option Nat
deriving Repr, DecidableEq

/-- MediaPad::has_index (src/media_pad.rs lines 72-74). -/
def MediaPad.has_index (media_version : Version) : Bool :=
  media.MEDIA_V2_PAD_HAS_INDEX media_version.toU32

/-- MediaPad::from(version, pad) (src/media_pad.rs lines 76-87). The source
unwraps the flag decode; an unwrap of an Err is a panic, modelled as the
error branch of the Except. -/
def MediaPad.fromRaw (version : Version) (pad : RawPad) : Except PanicInfo MediaPad :=
  match MediaPadFlags.tryFrom pad.flags with
  | .error e => .error (.unwrapError e)
  | .ok f =>
    .ok { id := pad.id
          entity_id := pad.entity_id
          flags := f
          index := if MediaPad.has_index version then some pad.index else none }

/-! ### media_entity.rs: MediaEntity -/

structure MediaEntity where
  id : Nat
  name : String
  function : Nat
  flags : Option MediaEntityFlags
deriving Repr, DecidableEq

/-- MediaEntity::has_flags (src/media_entity.rs lines 186-188). -/
def MediaEntity.has_flags (version : Version) : Bool :=
  media.MEDIA_V2_ENTITY_HAS_FLAGS version.toU32

/-- Modelled from the spec: `MediaEntity::from_raw_entity(media_version, ent)`
is called by both topology builds (media_topology.rs line 111,
media_topology_builder.rs line 199) but its definition is absent from src/
(media_entity.rs is an older revision whose unused From impl is not version
gated). Per spec section 3 and 4.3: the flags field is present only if the
entity-flags capability gate holds for the version, absent otherwise, and an
unrecognized flags value under the gate is a hard decode failure (a panic at
this call site, like the sibling decoders). The function kind is carried as
its raw numeric value. -/
def MediaEntity.from_raw_entity (version : Version) (e : RawEntity) :
    Except PanicInfo MediaEntity :=
  if MediaEntity.has_flags version then
    match MediaEntityFlags.tryFrom e.flags with
    | .error err => .error (.unwrapError err)
    | .ok f => .ok { id := e.id, name := e.name, function := e.function, flags := some f }
  else
    .ok { id := e.id, name := e.name, function := e.function, flags := none }

/-! ### media_interface.rs: MediaInterface -/

structure MediaIntfDevnode where
  major : Nat
  minor : Nat
deriving Repr, DecidableEq

/-- MediaInterface; the interface type is carried as its raw numeric value
(the MediaInterfaceType enum decode carries no protocol logic for the
claims under verification). -/
structure MediaInterface where
  id : Nat
  intf_type : Nat
  devnode : MediaIntfDevnode
deriving Repr, DecidableEq

def mediaInterfaceFromRaw (intf : RawInterface) : MediaInterface :=
  { id := intf.id, intf_type := intf.intf_type
    devnode := { major := intf.major, minor := intf.minor } }

/-! ### media_link.rs: MediaLink -/

inductive LinkType where
  | DataLink (source_id sink_id : Nat)
  | InterfaceLink (source_id sink_id : Nat)
  | AncillaryLink (source_id sink_id : Nat)
deriving Repr, DecidableEq

structure MediaLink where
  id : Nat
  linkType : LinkType
  flags : MediaLinkFlags
deriving Repr, DecidableEq

/-- The match on `link.flags & MEDIA_LNK_FL_LINK_TYPE` in
From<media_v2_link> for MediaLink (src/media_link.rs lines 75-89); the
unmatched arm is `unreachable!` naming the discriminant value, a panic. -/
def decodeLinkType (link : RawLink) : Except PanicInfo LinkType :=
  if link.flags &&& media.MEDIA_LNK_FL_LINK_TYPE = media.MEDIA_LNK_FL_DATA_LINK then
    .ok (.DataLink link.source_id link.sink_id)
  else if link.flags &&& media.MEDIA_LNK_FL_LINK_TYPE = media.MEDIA_LNK_FL_INTERFACE_LINK then
    .ok (.InterfaceLink link.source_id link.sink_id)
  else if link.flags &&& media.MEDIA_LNK_FL_LINK_TYPE = media.MEDIA_LNK_FL_ANCILLARY_LINK then
    .ok (.AncillaryLink link.source_id link.sink_id)
  else
    .error (.unknownLinkType (link.flags &&& media.MEDIA_LNK_FL_LINK_TYPE))

/-- From<media_v2_link> for MediaLink (src/media_link.rs lines 73-96): the
type discriminant is matched first (unreachable! on an unknown pattern),
then the flags are decoded with try_into().unwrap() (panic on Err). -/
def MediaLink.fromRaw (link : RawLink) : Except PanicInfo MediaLink :=
  match decodeLinkType link with
  | .error p => .error p
  | .ok ty =>
    match MediaLinkFlags.tryFrom link.flags with
    | .error e => .error (.unwrapError e)
    | .ok f => .ok { id := link.id, linkType := ty, flags := f }

/-! ### The two-phase MEDIA_IOC_G_TOPOLOGY protocol
(media_topology.rs, media_topology_builder.rs) -/

/-- What the kernel writes into the media_v2_topology struct on the first
(size-discovery) call: the generation counter and the four counts. -/
structure Phase1Reply where
  topology_version : Nat
  num_entities : Nat
  num_interfaces : Nat
  num_pads : Nat
  num_links : Nat
deriving Repr, DecidableEq

/-- What the kernel would write on the second (populate) call: the generation
counter again and the record arrays. -/
structure Phase2Reply where
  topology_version : Nat
  entities : List RawEntity
  interfaces : List RawInterface
  pads : List RawPad
  links : List RawLink
deriving Repr, DecidableEq

deriving instance DecidableEq for Except

/-- A mock media device: the responses to the two successive
MEDIA_IOC_G_TOPOLOGY ioctl calls issued by from_fd. An `error` is the raw
errno of a failed ioctl. -/
structure MockDevice where
  phase1 : Except Nat Phase1Reply
  phase2 : Except Nat Phase2Reply
deriving Repr, DecidableEq

/-- Contents of a zero-initialized buffer of length `n` after the kernel has
written `xs` into it: the kernel writes at most `n` records and the rest of
the buffer keeps its zeroed records. -/
def kernelFill {α : Type} (n : Nat) (zero : α) (xs : List α) : List α :=
  xs.take n ++ List.replicate (n - xs.length) zero

/-- MediaTopologyBuilder (src/media_topology_builder.rs lines 63-69). -/
structure MediaTopologyBuilder where
  entities : Bool
  interfaces : Bool
  links : Bool
  pads : Bool
deriving Repr, DecidableEq

def MediaTopologyBuilder.new : MediaTopologyBuilder :=
  { entities := false, interfaces := false, links := false, pads := false }

def MediaTopologyBuilder.get_entity (self : MediaTopologyBuilder) : MediaTopologyBuilder :=
  { self with entities := true }

def MediaTopologyBuilder.get_interface (self : MediaTopologyBuilder) : MediaTopologyBuilder :=
  { self with interfaces := true }

def MediaTopologyBuilder.get_link (self : MediaTopologyBuilder) : MediaTopologyBuilder :=
  { self with links := true }

def MediaTopologyBuilder.get_pad (self : MediaTopologyBuilder) : MediaTopologyBuilder :=
  { self with pads := true }

/-- Modelled from the spec: the MediaTopology value produced by the builder
revision, whose MediaTopology::new takes Option-valued collections
(media_topology.rs in the tree is an older revision with plain Vec fields
and no `new`). Per spec section 3, any node-kind collection may be absent
(None), distinct from present-but-empty. -/
structure MediaTopologyOpt where
  path : Option String
  version : Nat
  entities : Option (List MediaEntity)
  interfaces : Option (List MediaInterface)
  pads : Option (List MediaPad)
  links : Option (List MediaLink)
deriving Repr, DecidableEq

/-- MediaTopologyBuilder::from_fd (src/media_topology_builder.rs lines
139-212): first ioctl discovers version and counts; buffers are allocated
only for requested kinds (null pointers otherwise, which the kernel skips);
second ioctl populates; then `assert_eq!(version, topology.topology_version)`
panics on a mismatch; finally each populated buffer is decoded
(entities, interfaces, pads, links in argument order) and unrequested kinds
become None via bool::then_some. -/
def MediaTopologyBuilder.from_fd (self : MediaTopologyBuilder) (fd : Int)
    (media_version : Version) (dev : MockDevice) : Outcome MediaTopologyOpt :=
  match dev.phase1 with
  | .error c => .err (Error.ioctl_error fd c media.MEDIA_IOC_G_TOPOLOGY)
  | .ok r1 =>
    match dev.phase2 with
    | .error c => .err (Error.ioctl_error fd c media.MEDIA_IOC_G_TOPOLOGY)
    | .ok r2 =>
      if r1.topology_version = r2.topology_version then
        match (if self.entities then kernelFill r1.num_entities RawEntity.zero r2.entities
               else []).mapM (MediaEntity.from_raw_entity media_version) with
        | .error p => .panic p
        | .ok ents =>
          match (if self.pads then kernelFill r1.num_pads RawPad.zero r2.pads
                 else []).mapM (MediaPad.fromRaw media_version) with
          | .error p => .panic p
          | .ok padList =>
            match (if self.links then kernelFill r1.num_links RawLink.zero r2.links
                   else []).mapM MediaLink.fromRaw with
            | .error p => .panic p
            | .ok linkList =>
              .ok { path := none
                    version := r2.topology_version
                    entities := if self.entities then some ents else none
                    interfaces :=
                      if self.interfaces then
                        some ((kernelFill r1.num_interfaces RawInterface.zero
                                 r2.interfaces).map mediaInterfaceFromRaw)
                      else none
                    pads := if self.pads then some padList else none
                    links := if self.links then some linkList else none }
      else .panic (.assertVersionMismatch r1.topology_version r2.topology_version)

/-- MediaTopology as defined in src/media_topology.rs (plain collections,
every kind always fetched). -/
structure MediaTopology where
  path : Option String
  version : Nat
  entities : List MediaEntity
  interfaces : List MediaInterface
  pads : List MediaPad
  links : List MediaLink
deriving Repr, DecidableEq

/-- MediaTopology::from_fd (src/media_topology.rs lines 76-120): the same
two-phase protocol with all four kinds allocated unconditionally, the same
assert_eq! on the version, then decoding in field order
(entities, interfaces, pads, links). -/
def MediaTopology.from_fd (fd : Int) (media_version : Version)
    (dev : MockDevice) : Outcome MediaTopology :=
  match dev.phase1 with
  | .error c => .err (Error.ioctl_error fd c media.MEDIA_IOC_G_TOPOLOGY)
  | .ok r1 =>
    match dev.phase2 with
    | .error c => .err (Error.ioctl_error fd c media.MEDIA_IOC_G_TOPOLOGY)
    | .ok r2 =>
      if r1.topology_version = r2.topology_version then
        match (kernelFill r1.num_entities RawEntity.zero r2.entities).mapM
            (MediaEntity.from_raw_entity media_version) with
        | .error p => .panic p
        | .ok ents =>
          match (kernelFill r1.num_pads RawPad.zero r2.pads).mapM
              (MediaPad.fromRaw media_version) with
          | .error p => .panic p
          | .ok padList =>
            match (kernelFill r1.num_links RawLink.zero r2.links).mapM
                MediaLink.fromRaw with
            | .error p => .panic p
            | .ok linkList =>
              .ok { path := none
                    version := r2.topology_version
                    entities := ents
                    interfaces :=
                      (kernelFill r1.num_interfaces RawInterface.zero
                        r2.interfaces).map mediaInterfaceFromRaw
                    pads := padList
                    links := linkList }
      else .panic (.assertVersionMismatch r1.topology_version r2.topology_version)

/-! ### media_entity_desc.rs: MediaEntityDesc and the entity cursor -/

/-- MediaEntityDesc: the decoded per-entity summary record. The function
kind is carried as its raw numeric value. -/
structure MediaEntityDesc where
  id : Nat
  name : String
  type_ : Nat
  flags : MediaEntityFlags
  pads : Nat
  links : Nat
deriving Repr, DecidableEq

/-- A device as seen through single-entity MEDIA_IOC_ENUM_ENTITIES lookups:
the response to a lookup with the given id field (possibly carrying
MEDIA_ENT_ID_FLAG_NEXT). An `error` is the classified ioctl failure. -/
abbrev EntityDevice := Nat → Except Error MediaEntityDesc

/-- MediaEntityIter::desc (src/media_entity_desc.rs lines 107-117): issues
one lookup and collapses the Result to an Option with is_ok — every failure,
whatever its error, becomes None. -/
def MediaEntityIter.desc (dev : EntityDevice) (id : Nat) : Option MediaEntityDesc :=
  match dev id with
  | .ok d => some d
  | .error _ => none

/-- The cursor state: the last absorbed id and the prefetched next
descriptor (src/media_entity_desc.rs lines 88-95; fd and media_version are
parameters of the step function here). -/
structure IterState where
  id : Nat
  desc : Option MediaEntityDesc
deriving Repr, DecidableEq

/-- MediaEntityIter::new (src/media_entity_desc.rs lines 97-105): prefetch
the descriptor of the starting id itself. -/
def MediaEntityIter.new (dev : EntityDevice) (id : Nat) : IterState :=
  { id := id, desc := MediaEntityIter.desc dev id }

/-- Modelled from the spec: `MediaEntity::from_desc(media_version, desc)` is
called by the iterator (media_entity_desc.rs line 125) but its definition is
absent from src/ (older-revision media_entity.rs). Per spec section 4.5 the
cursor yields a decoded Entity for the descriptor; per section 3 the flags
field is gated on the entity-flags capability. -/
def MediaEntity.from_desc (version : Version) (d : MediaEntityDesc) : MediaEntity :=
  { id := d.id, name := d.name, function := d.type_
    flags := if MediaEntity.has_flags version then some d.flags else none }

/-- Iterator::next for MediaEntityIter (src/media_entity_desc.rs lines
120-139): yield the prefetched descriptor as an entity, then prefetch the
successor via id | MEDIA_ENT_ID_FLAG_NEXT; a failed prefetch stores None,
ending the sequence. -/
def MediaEntityIter.next (dev : EntityDevice) (version : Version)
    (s : IterState) : Option MediaEntity × IterState :=
  match s.desc with
  | some d =>
    match MediaEntityIter.desc dev (s.id ||| media.MEDIA_ENT_ID_FLAG_NEXT) with
    | some d2 => (some (MediaEntity.from_desc version d), { id := d2.id, desc := some d2 })
    | none => (some (MediaEntity.from_desc version d), { id := s.id, desc := none })
  | none => (none, s)

/-- The cursor state after `k` calls of next. -/
def MediaEntityIter.stateAfter (dev : EntityDevice) (version : Version)
    (s0 : IterState) : Nat → IterState
  | 0 => s0
  | k + 1 => (MediaEntityIter.next dev version (MediaEntityIter.stateAfter dev version s0 k)).2

/-- The item yielded by the (k+1)-th call of next. -/
def MediaEntityIter.yieldAt (dev : EntityDevice) (version : Version)
    (s0 : IterState) (k : Nat) : Option MediaEntity :=
  (MediaEntityIter.next dev version (MediaEntityIter.stateAfter dev version s0 k)).1

/-- A fixed, non-mutating mock device backed by a list of descriptors,
answering MEDIA_IOC_ENUM_ENTITIES the way claim C7 and spec section 4.5
describe the kernel: a query with MEDIA_ENT_ID_FLAG_NEXT (bit 31) set has
the flag cleared and returns the first listed entity with a strictly larger
id; a query without it is an exact-id lookup; otherwise the lookup fails
(errno EINVAL, the no-more-entities condition). -/
def listDevice (fd : Int) (xs : List MediaEntityDesc) : EntityDevice := fun q =>
  if 2 ^ 31 ≤ q then
    match xs.find? (fun d => decide (q % 2 ^ 31 < d.id)) with
    | some d => .ok d
    | none => .error (Error.ioctl_error fd EINVAL media.MEDIA_IOC_ENUM_ENTITIES)
  else
    match xs.find? (fun d => decide (d.id = q)) with
    | some d => .ok d
    | none => .error (Error.ioctl_error fd EINVAL media.MEDIA_IOC_ENUM_ENTITIES)

/-! ### Concrete fixtures used by counterexamples and witnesses -/

/-- A mock device whose two phases report different topology_version values
(1 then 2) and no records. -/
def tornMock : MockDevice :=
  { phase1 := .ok { topology_version := 1, num_entities := 0, num_interfaces := 0
                    num_pads := 0, num_links := 0 }
    phase2 := .ok { topology_version := 2, entities := [], interfaces := []
                    pads := [], links := [] } }

/-- A raw link whose 4-bit type discriminant is 3, matching none of the
data-link (0), interface-link (1) or ancillary-link (2) patterns. -/
def badLink : RawLink := { id := 9, source_id := 1, sink_id := 2, flags := 3 <<< 28 }

/-- A mock device that reports one link and serves `badLink`, with matching
versions in both phases. -/
def badLinkMock : MockDevice :=
  { phase1 := .ok { topology_version := 7, num_entities := 0, num_interfaces := 0
                    num_pads := 0, num_links := 1 }
    phase2 := .ok { topology_version := 7, entities := [], interfaces := []
                    pads := [], links := [badLink] } }

/-- A kernel version at the 4.19 capability threshold (gates hold). -/
def v419 : Version := { major := 4, minor := 19, patch := 0 }

/-- A builder requesting only pads and links. -/
def padLinkBuilder : MediaTopologyBuilder :=
  MediaTopologyBuilder.new.get_pad.get_link

/-- The phase-1 reply of a device with three entities and no pads, links or
interfaces. -/
def threeEntityPhase1 : Phase1Reply :=
  { topology_version := 5, num_entities := 3, num_interfaces := 0
    num_pads := 0, num_links := 0 }

/-- A mock device with three entities (ids 10, 20, 30) and no pads, links or
interfaces, consistent across both phases. -/
def threeEntityMock : MockDevice :=
  { phase1 := .ok threeEntityPhase1
    phase2 := .ok { topology_version := 5
                    entities := [{ id := 10, name := "a", function := 0, flags := 1 },
                                 { id := 20, name := "b", function := 0, flags := 1 },
                                 { id := 30, name := "c", function := 0, flags := 1 }]
                    interfaces := [], pads := [], links := [] } }

/-- The topology `padLinkBuilder` builds from `threeEntityMock`. -/
def padLinkTopo : MediaTopologyOpt :=
  { path := none, version := 5, entities := none, interfaces := none
    pads := some [], links := some [] }

/-- A kernel version below the 4.19 capability threshold (gates fail). -/
def v40 : Version := { major := 4, minor := 0, patch := 0 }

/-- A device whose every single-entity lookup fails with DeviceIsBusy. -/
def busyEntityDevice : EntityDevice :=
  fun _ => .error (.DeviceIsBusy 3 EBUSY media.MEDIA_IOC_ENUM_ENTITIES)

/-- A concrete entity descriptor. -/
def sampleDesc : MediaEntityDesc :=
  { id := 1, name := "sensor", type_ := 0, flags := .Default, pads := 0, links := 0 }

/-- A second concrete entity descriptor with a larger id. -/
def sampleDesc2 : MediaEntityDesc :=
  { id := 5, name := "scaler", type_ := 0, flags := .Default, pads := 0, links := 0 }

/-! ## Theorems -/

/-- C1 (counterexample): on a device whose two phases report topology_version
1 and then 2, both MediaTopologyBuilder::from_fd and MediaTopology::from_fd
end in a panic (the assert_eq!), not in a returned torn-read error value. -/
theorem torn_read_counterexample :
    MediaTopologyBuilder.new.from_fd 3 v419 tornMock
      = .panic (.assertVersionMismatch 1 2) ∧
    MediaTopology.from_fd 3 v419 tornMock
      = .panic (.assertVersionMismatch 1 2) := by
  constructor <;> rfl

/-- C1 (amended): for every two-phase topology fetch in which the two control
calls succeed but report differing topology_version values, both from_fd
operations abort by panicking on the assert_eq! version check — they return
neither a torn-read error value nor any topology merging data from the two
phases. -/
theorem torn_read_panics :
    ∀ (fd : Int) (mv : Version) (b : MediaTopologyBuilder) (dev : MockDevice)
      (r1 : Phase1Reply) (r2 : Phase2Reply),
      dev.phase1 = .ok r1 → dev.phase2 = .ok r2 →
      r1.topology_version ≠ r2.topology_version →
      b.from_fd fd mv dev
        = .panic (.assertVersionMismatch r1.topology_version r2.topology_version) ∧
      MediaTopology.from_fd fd mv dev
        = .panic (.assertVersionMismatch r1.topology_version r2.topology_version) := by
  intro fd mv b dev r1 r2 h1 h2 h3
  constructor <;>
    simp [MediaTopologyBuilder.from_fd, MediaTopology.from_fd, h1, h2, h3]

/-- C1 (witness): the amended theorem applied to the concrete torn mock. -/
theorem torn_read_panics_witness :
    MediaTopologyBuilder.new.from_fd 3 v419 tornMock
      = .panic (.assertVersionMismatch 1 2) ∧
    MediaTopology.from_fd 3 v419 tornMock
      = .panic (.assertVersionMismatch 1 2) :=
  torn_read_panics 3 v419 MediaTopologyBuilder.new tornMock
    { topology_version := 1, num_entities := 0, num_interfaces := 0
      num_pads := 0, num_links := 0 }
    { topology_version := 2, entities := [], interfaces := [], pads := [], links := [] }
    rfl rfl (by decide)

/-- C2: Request::queue failing with raw EBUSY yields DeviceIsBusy, not
RequestIsAlreadyQueued: the ioctl! macro classifies EBUSY into DeviceIsBusy
before queue's map_err closure runs, and that closure re-maps only the
generic Ioctl variant, so its EBUSY arm is dead code. A generic topology
query failing with EBUSY also yields DeviceIsBusy (that half of the claim
holds). -/
theorem queue_ebusy_yields_device_busy :
    ∀ fd : Int,
      Request.queueError fd EBUSY
        = .DeviceIsBusy fd EBUSY media.MEDIA_REQUEST_IOC_QUEUE ∧
      Error.ioctl_error fd EBUSY media.MEDIA_IOC_G_TOPOLOGY
        = .DeviceIsBusy fd EBUSY media.MEDIA_IOC_G_TOPOLOGY ∧
      Request.queueError fd EBUSY
        ≠ .RequestIsAlreadyQueued fd EBUSY media.MEDIA_REQUEST_IOC_QUEUE := by
  intro fd
  refine ⟨rfl, rfl, ?_⟩
  simp [Request.queueError, Request.queueMapErr, Error.ioctl_error]

/-- C3 (counterexample): a raw link whose type discriminant is 3 (none of
the three recognized patterns) makes the MediaLink decode panic via
unreachable! (carrying the discriminant), and makes a links-requesting build
end in that panic — not in a returned decode-error value. -/
theorem unknown_link_type_counterexample :
    MediaLink.fromRaw badLink = .error (.unknownLinkType (3 <<< 28)) ∧
    (MediaTopologyBuilder.new.get_link).from_fd 3 v419 badLinkMock
      = .panic (.unknownLinkType (3 <<< 28)) := by
  constructor <;> rfl

/-- C3 (amended): for every raw link whose 4-bit type discriminant matches
none of the data-link, interface-link or ancillary-link patterns, decoding
panics via unreachable!, naming the discriminant bits; no typed link is ever
produced for the record (and the enclosing build aborts with that panic, as
the counterexample shows) — but the failure is a panic, not a returned
decode-error value. -/
theorem unknown_link_type_panics :
    ∀ l : RawLink,
      l.flags &&& media.MEDIA_LNK_FL_LINK_TYPE ≠ media.MEDIA_LNK_FL_DATA_LINK →
      l.flags &&& media.MEDIA_LNK_FL_LINK_TYPE ≠ media.MEDIA_LNK_FL_INTERFACE_LINK →
      l.flags &&& media.MEDIA_LNK_FL_LINK_TYPE ≠ media.MEDIA_LNK_FL_ANCILLARY_LINK →
      MediaLink.fromRaw l
        = .error (.unknownLinkType (l.flags &&& media.MEDIA_LNK_FL_LINK_TYPE)) ∧
      ∀ f : MediaLink, MediaLink.fromRaw l ≠ .ok f := by
  intro l h1 h2 h3
  have hd : decodeLinkType l
      = .error (.unknownLinkType (l.flags &&& media.MEDIA_LNK_FL_LINK_TYPE)) := by
    simp [decodeLinkType, h1, h2, h3]
  exact ⟨by simp [MediaLink.fromRaw, hd], fun f => by simp [MediaLink.fromRaw, hd]⟩

/-- C3 (witness): the amended theorem applied to the concrete bad link. -/
theorem unknown_link_type_panics_witness :
    MediaLink.fromRaw badLink
      = .error (.unknownLinkType (badLink.flags &&& media.MEDIA_LNK_FL_LINK_TYPE)) ∧
    ∀ f : MediaLink, MediaLink.fromRaw badLink ≠ .ok f :=
  unknown_link_type_panics badLink (by decide) (by decide) (by decide)

/-- C6 (counterexample): the raw pad-flags value 9 (SINK plus the
unrecognized bit 3) decodes to Ok(Sink): the unrecognized bit is silently
discarded instead of producing PadFlagsParseError 9. -/
theorem pad_flags_mask_counterexample :
    MediaPadFlags.tryFrom 9 = .ok .Sink ∧
    MediaPadFlags.tryFrom 9 ≠ .error (.PadFlagsParseError 9) := by
  constructor <;> decide

/-- C6 (amended): entity-flags decoding rejects every value other than the
two recognized constants with EntityFlagsParseError carrying the raw value;
link-flags decoding rejects any bit outside ENABLED|IMMUTABLE|DYNAMIC and
outside the masked-off link-type field with LinkTypeParseError carrying the
raw value; pad-flags decoding errs (PadFlagsParseError with the raw value)
exactly when neither direction bit is set, and otherwise succeeds, silently
discarding unrecognized bits. -/
theorem flags_decode_behavior :
    (∀ v : Nat, v ≠ media.MEDIA_ENT_FL_DEFAULT → v ≠ media.MEDIA_ENT_FL_CONNECTOR →
      MediaEntityFlags.tryFrom v = .error (.EntityFlagsParseError v)) ∧
    (∀ v : Nat, v &&& 0x0FFFFFF8 ≠ 0 →
      MediaLinkFlags.tryFrom v = .error (.LinkTypeParseError v)) ∧
    (∀ v : Nat, v &&& media.MEDIA_PAD_FL_SINK = 0 →
      v &&& media.MEDIA_PAD_FL_SOURCE = 0 →
      MediaPadFlags.tryFrom v = .error (.PadFlagsParseError v)) ∧
    (∀ v : Nat,
      (v &&& media.MEDIA_PAD_FL_SINK ≠ 0 ∨ v &&& media.MEDIA_PAD_FL_SOURCE ≠ 0) →
      ∃ f, MediaPadFlags.tryFrom v = .ok f) := by
  refine ⟨?_, ?_, ?_, ?_⟩
  · intro v h1 h2
    simp [MediaEntityFlags.tryFrom, h1, h2]
  · intro v hv
    have hm : (v &&& 0x0FFFFFFF) &&& 0xFFFFFFF8 = v &&& 0x0FFFFFF8 := by
      rw [Nat.and_assoc]
      have h28 : (0x0FFFFFFF &&& 0xFFFFFFF8 : Nat) = 0x0FFFFFF8 := by decide
      rw [h28]
    simp only [MediaLinkFlags.tryFrom, MediaLinkFlags.from_bits, hm]
    rw [if_neg hv]
  · intro v h1 h2
    simp [MediaPadFlags.tryFrom, h1, h2]
  · intro v h
    by_cases h1 : v &&& media.MEDIA_PAD_FL_SINK = 0
    · have h2 : v &&& media.MEDIA_PAD_FL_SOURCE ≠ 0 := h.resolve_left (not_not_intro h1)
      by_cases hm : v &&& media.MEDIA_PAD_FL_MUST_CONNECT = 0
      · exact ⟨.Source, by simp [MediaPadFlags.tryFrom, h1, h2, hm]⟩
      · exact ⟨.SourceMustConnect, by simp [MediaPadFlags.tryFrom, h1, h2, hm]⟩
    · by_cases hm : v &&& media.MEDIA_PAD_FL_MUST_CONNECT = 0
      · exact ⟨.Sink, by simp [MediaPadFlags.tryFrom, h1, hm]⟩
      · exact ⟨.SinkMustConnect, by simp [MediaPadFlags.tryFrom, h1, hm]⟩

/-- C6 (witness): the amended theorem applied at concrete raw values:
entity flags 5, link flags 8, pad flags 0 and pad flags 9. -/
theorem flags_decode_behavior_witness :
    MediaEntityFlags.tryFrom 5 = .error (.EntityFlagsParseError 5) ∧
    MediaLinkFlags.tryFrom 8 = .error (.LinkTypeParseError 8) ∧
    MediaPadFlags.tryFrom 0 = .error (.PadFlagsParseError 0) ∧
    ∃ f, MediaPadFlags.tryFrom 9 = .ok f :=
  ⟨flags_decode_behavior.1 5 (by decide) (by decide),
   flags_decode_behavior.2.1 8 (by decide),
   flags_decode_behavior.2.2.1 0 (by decide) (by decide),
   flags_decode_behavior.2.2.2 9 (Or.inl (by decide))⟩

/-- C8: every raw OS code the reinit control call can return (modelled from
the spec as only EBUSY) is reported by Request::init as DeviceIsBusy. -/
theorem reinit_fails_only_device_busy :
    ∀ (fd : Int) (code : Nat), code ∈ reinitRaisableCodes →
      Request.initError fd code
        = .DeviceIsBusy fd code media.MEDIA_REQUEST_IOC_REINIT := by
  intro fd code hc
  simp only [reinitRaisableCodes, List.mem_singleton] at hc
  subst hc
  rfl

/-- C4: in every successful decode, a pad's index field is Some exactly when
the MEDIA_V2_PAD_HAS_INDEX gate holds for the device's kernel media version,
and an entity's flags field is Some exactly when the
MEDIA_V2_ENTITY_HAS_FLAGS gate holds for that version. -/
theorem optional_fields_match_gates :
    (∀ (v : Version) (p : RawPad) (mp : MediaPad),
        MediaPad.fromRaw v p = .ok mp →
        (mp.index.isSome = true ↔ MediaPad.has_index v = true)) ∧
    (∀ (v : Version) (e : RawEntity) (me : MediaEntity),
        MediaEntity.from_raw_entity v e = .ok me →
        (me.flags.isSome = true ↔ MediaEntity.has_flags v = true)) := by
  constructor
  · intro v p mp h
    unfold MediaPad.fromRaw at h
    cases htf : MediaPadFlags.tryFrom p.flags with
    | error e => rw [htf] at h; cases h
    | ok f =>
      rw [htf] at h
      injection h with h
      subst h
      cases hg : MediaPad.has_index v <;> simp [hg]
  · intro v e me h
    unfold MediaEntity.from_raw_entity at h
    cases hg : MediaEntity.has_flags v
    · rw [hg] at h
      simp only [Bool.false_eq_true, if_false] at h
      injection h with h
      subst h
      simp [hg]
    · rw [hg] at h
      simp only [if_true] at h
      cases htf : MediaEntityFlags.tryFrom e.flags with
      | error err => rw [htf] at h; cases h
      | ok f =>
        rw [htf] at h
        injection h with h
        subst h
        simp [hg]

/-- C4 (witness): the theorem applied at kernel version 4.19.0 and concrete
raw records (gate holds, so index and flags are Some). -/
theorem optional_fields_match_gates_witness :
    MediaPad.fromRaw v419 { id := 10, entity_id := 4, flags := 1, index := 0 }
      = .ok { id := 10, entity_id := 4, flags := .Sink, index := some 0 } ∧
    ((some 0 : Option Nat).isSome = true ↔ MediaPad.has_index v419 = true) ∧
    MediaEntity.from_raw_entity v419 { id := 4, name := "cam", function := 0, flags := 1 }
      = .ok { id := 4, name := "cam", function := 0, flags := some .Default } ∧
    ((some MediaEntityFlags.Default).isSome = true ↔ MediaEntity.has_flags v419 = true) :=
  ⟨by decide,
   optional_fields_match_gates.1 v419 { id := 10, entity_id := 4, flags := 1, index := 0 }
     { id := 10, entity_id := 4, flags := .Sink, index := some 0 } (by decide),
   by decide,
   optional_fields_match_gates.2 v419 { id := 4, name := "cam", function := 0, flags := 1 }
     { id := 4, name := "cam", function := 0, flags := some .Default } (by decide)⟩

/-- C5: for every builder configuration and every from_fd build that returns
Ok, each node-kind field of the topology is None exactly when that kind was
not requested, and a requested kind whose phase-1 count is zero comes back
as Some of the empty collection. -/
theorem builder_fields_match_request :
    ∀ (b : MediaTopologyBuilder) (fd : Int) (mv : Version) (dev : MockDevice)
      (r1 : Phase1Reply) (t : MediaTopologyOpt),
      dev.phase1 = .ok r1 → b.from_fd fd mv dev = .ok t →
      (t.entities.isSome = b.entities ∧ t.interfaces.isSome = b.interfaces ∧
       t.pads.isSome = b.pads ∧ t.links.isSome = b.links) ∧
      ((b.entities = true → r1.num_entities = 0 → t.entities = some []) ∧
       (b.interfaces = true → r1.num_interfaces = 0 → t.interfaces = some []) ∧
       (b.pads = true → r1.num_pads = 0 → t.pads = some []) ∧
       (b.links = true → r1.num_links = 0 → t.links = some [])) := by
  intro b fd mv dev r1 t h1 h
  unfold MediaTopologyBuilder.from_fd at h
  rw [h1] at h
  simp only [] at h
  cases h2 : dev.phase2 with
  | error c => rw [h2] at h; simp at h
  | ok r2 =>
    rw [h2] at h
    simp only [] at h
    by_cases hv : r1.topology_version = r2.topology_version
    · rw [if_pos hv] at h
      cases hE : (if b.entities then kernelFill r1.num_entities RawEntity.zero r2.entities
          else []).mapM (MediaEntity.from_raw_entity mv) with
      | error p => rw [hE] at h; simp at h
      | ok ents =>
        rw [hE] at h
        cases hP : (if b.pads then kernelFill r1.num_pads RawPad.zero r2.pads
            else []).mapM (MediaPad.fromRaw mv) with
        | error p => rw [hP] at h; simp at h
        | ok padList =>
          rw [hP] at h
          cases hL : (if b.links then kernelFill r1.num_links RawLink.zero r2.links
              else []).mapM MediaLink.fromRaw with
          | error p => rw [hL] at h; simp at h
          | ok linkList =>
            rw [hL] at h
            injection h with h
            subst h
            constructor
            · refine ⟨?_, ?_, ?_, ?_⟩
              · cases hb : b.entities <;> simp [hb]
              · cases hb : b.interfaces <;> simp [hb]
              · cases hb : b.pads <;> simp [hb]
              · cases hb : b.links <;> simp [hb]
            · refine ⟨?_, ?_, ?_, ?_⟩
              · intro hb hn
                have hfill : kernelFill r1.num_entities RawEntity.zero r2.entities = [] := by
                  simp [kernelFill, hn]
                simp only [hb, eq_self_iff_true, if_true, hfill, List.mapM_nil] at hE
                have hents : ents = [] := by simpa [pure, Except.pure] using hE.symm
                simp [hb, hents]
              · intro hb hn
                have hfill : kernelFill r1.num_interfaces RawInterface.zero r2.interfaces = [] := by
                  simp [kernelFill, hn]
                simp [hb, hfill]
              · intro hb hn
                have hfill : kernelFill r1.num_pads RawPad.zero r2.pads = [] := by
                  simp [kernelFill, hn]
                simp only [hb, eq_self_iff_true, if_true, hfill, List.mapM_nil] at hP
                have hpads : padList = [] := by simpa [pure, Except.pure] using hP.symm
                simp [hb, hpads]
              · intro hb hn
                have hfill : kernelFill r1.num_links RawLink.zero r2.links = [] := by
                  simp [kernelFill, hn]
                simp only [hb, eq_self_iff_true, if_true, hfill, List.mapM_nil] at hL
                have hlinks : linkList = [] := by simpa [pure, Except.pure] using hL.symm
                simp [hb, hlinks]
    · rw [if_neg hv] at h
      simp at h

/-- C5 (witness): the theorem applied to the pads-and-links builder against
the three-entity device with zero pads and links: entities and interfaces
come back None, pads and links come back Some []. -/
theorem builder_fields_match_request_witness :
    (padLinkTopo.entities.isSome = padLinkBuilder.entities ∧
     padLinkTopo.interfaces.isSome = padLinkBuilder.interfaces ∧
     padLinkTopo.pads.isSome = padLinkBuilder.pads ∧
     padLinkTopo.links.isSome = padLinkBuilder.links) ∧
    ((padLinkBuilder.entities = true → threeEntityPhase1.num_entities = 0 →
        padLinkTopo.entities = some []) ∧
     (padLinkBuilder.interfaces = true → threeEntityPhase1.num_interfaces = 0 →
        padLinkTopo.interfaces = some []) ∧
     (padLinkBuilder.pads = true → threeEntityPhase1.num_pads = 0 →
        padLinkTopo.pads = some []) ∧
     (padLinkBuilder.links = true → threeEntityPhase1.num_links = 0 →
        padLinkTopo.links = some [])) :=
  builder_fields_match_request padLinkBuilder 3 v419 threeEntityMock
    threeEntityPhase1 padLinkTopo rfl (by decide)

/-- C8 (witness): the theorem applied at fd 3 and code EBUSY. -/
theorem reinit_fails_only_device_busy_witness :
    EBUSY ∈ reinitRaisableCodes ∧
    Request.initError 3 EBUSY
      = .DeviceIsBusy 3 EBUSY media.MEDIA_REQUEST_IOC_REINIT :=
  ⟨by decide, reinit_fails_only_device_busy 3 EBUSY (by decide)⟩

/-! ### Bitwise arithmetic helpers -/

/-- Masking with a shifted mask then shifting right equals shifting right
then masking. -/
theorem and_shiftLeft_shiftRight_eq (v m k : Nat) :
    (v &&& (m <<< k)) >>> k = (v >>> k) &&& m := by
  apply Nat.eq_of_testBit_eq
  intro j
  simp [Nat.testBit_shiftRight, Nat.testBit_and, Nat.testBit_shiftLeft,
        Nat.le_add_right, Nat.add_sub_cancel_left]

/-- Extracting the byte at bit offset k with mask-and-shift equals division
and mod-256. -/
theorem byte_extract (v k : Nat) :
    (v &&& (0xFF <<< k)) >>> k = v / 2 ^ k % 256 := by
  rw [and_shiftLeft_shiftRight_eq, Nat.shiftRight_eq_div_pow]
  have h : (0xFF : Nat) = 2 ^ 8 - 1 := by norm_num
  rw [h, Nat.and_pow_two_sub_one_eq_mod]

/-- OR-ing a left-shifted value with a value below the shift amount is
addition. -/
theorem shiftLeft_lor_add (a b k : Nat) (h : b < 2 ^ k) :
    (a <<< k) ||| b = a * 2 ^ k + b :=
  calc (a <<< k) ||| b = 2 ^ k * a ||| b := by rw [Nat.shiftLeft_eq, Nat.mul_comm]
    _ = 2 ^ k * a + b := (Nat.mul_add_lt_is_or h a).symm
    _ = a * 2 ^ k + b := by ring

/-- Version.toU32 in plain arithmetic, on u8-ranged fields. -/
theorem toU32_eq (v : Version) (hm : v.minor < 256) (hp : v.patch < 256) :
    v.toU32 = v.major * 65536 + v.minor * 256 + v.patch := by
  have hb : v.minor <<< 8 < 2 ^ 16 := by
    rw [Nat.shiftLeft_eq]
    omega
  have h1 : (v.major <<< 16) ||| (v.minor <<< 8) = v.major * 65536 + v.minor * 256 := by
    rw [shiftLeft_lor_add v.major (v.minor <<< 8) 16 hb, Nat.shiftLeft_eq]
    try norm_num
  unfold Version.toU32
  rw [h1]
  have h2 : v.major * 65536 + v.minor * 256 = 2 ^ 8 * (v.major * 256 + v.minor) := by ring
  rw [h2, ← Nat.mul_add_lt_is_or hp (v.major * 256 + v.minor)]
  try ring

/-- Version.fromU32 in plain arithmetic. -/
theorem fromU32_eq (n : Nat) :
    Version.fromU32 n = ⟨n / 65536 % 256, n / 256 % 256, n % 256⟩ := by
  unfold Version.fromU32
  simp only [Version.mk.injEq]
  refine ⟨?_, ?_, ?_⟩ <;> rw [byte_extract] <;> omega

/-- C9: the version packing round-trips: decoding the packed integer of any
u8-ranged Version gives the Version back, and encoding the decoded Version
of any integer below 2^24 gives the integer back. -/
theorem version_roundtrip :
    (∀ v : Version, v.major < 256 → v.minor < 256 → v.patch < 256 →
      Version.fromU32 v.toU32 = v) ∧
    (∀ n : Nat, n < 2 ^ 24 → (Version.fromU32 n).toU32 = n) := by
  constructor
  · intro v hM hm hp
    obtain ⟨M, m, p⟩ := v
    dsimp only at hM hm hp
    rw [toU32_eq ⟨M, m, p⟩ hm hp]
    dsimp only
    rw [fromU32_eq]
    simp only [Version.mk.injEq]
    omega
  · intro n hn
    rw [fromU32_eq]
    rw [toU32_eq ⟨n / 65536 % 256, n / 256 % 256, n % 256⟩
        (by dsimp only; omega) (by dsimp only; omega)]
    dsimp only
    omega

/-- C9 (witness): the round-trip theorem applied at version 4.19.3 and at
the packed integer 0x041303. -/
theorem version_roundtrip_witness :
    ((4 : Nat) < 256 ∧ (19 : Nat) < 256 ∧ (3 : Nat) < 256 ∧
      Version.fromU32 (Version.toU32 ⟨4, 19, 3⟩) = ⟨4, 19, 3⟩) ∧
    ((0x041303 : Nat) < 2 ^ 24 ∧ (Version.fromU32 0x041303).toU32 = 0x041303) :=
  ⟨⟨by decide, by decide, by decide,
    version_roundtrip.1 ⟨4, 19, 3⟩ (by decide) (by decide) (by decide)⟩,
   ⟨by decide, version_roundtrip.2 0x041303 (by decide)⟩⟩

/-- C10: the entity cursor conflates every lookup failure with normal
completion: whenever the prefetching lookup fails with any error value, the
iterator yields the pending entity, stores None, and every subsequent call
yields None; no error value is ever surfaced through the iterator (its item
type has no error channel). -/
theorem iter_swallows_lookup_errors :
    ∀ (dev : EntityDevice) (version : Version) (s : IterState)
      (d : MediaEntityDesc) (e : Error),
      s.desc = some d →
      dev (s.id ||| media.MEDIA_ENT_ID_FLAG_NEXT) = .error e →
      MediaEntityIter.next dev version s
        = (some (MediaEntity.from_desc version d), { id := s.id, desc := none }) ∧
      ∀ k, MediaEntityIter.yieldAt dev version { id := s.id, desc := none } k = none := by
  intro dev version s d e hd herr
  have hnone : MediaEntityIter.desc dev (s.id ||| media.MEDIA_ENT_ID_FLAG_NEXT) = none := by
    simp [MediaEntityIter.desc, herr]
  constructor
  · simp [MediaEntityIter.next, hd, hnone]
  · have hfix : ∀ k, MediaEntityIter.stateAfter dev version { id := s.id, desc := none } k
        = { id := s.id, desc := none } := by
      intro k
      induction k with
      | zero => rfl
      | succ k ih => simp [MediaEntityIter.stateAfter, ih, MediaEntityIter.next]
    intro k
    simp [MediaEntityIter.yieldAt, hfix k, MediaEntityIter.next]

/-- C10 (witness): the theorem applied to a device that always fails with
DeviceIsBusy. -/
theorem iter_swallows_lookup_errors_witness :
    MediaEntityIter.next busyEntityDevice v419 { id := 1, desc := some sampleDesc }
      = (some (MediaEntity.from_desc v419 sampleDesc), { id := 1, desc := none }) ∧
    ∀ k, MediaEntityIter.yieldAt busyEntityDevice v419 { id := 1, desc := none } k = none :=
  iter_swallows_lookup_errors busyEntityDevice v419
    { id := 1, desc := some sampleDesc } sampleDesc
    (.DeviceIsBusy 3 EBUSY media.MEDIA_IOC_ENUM_ENTITIES) rfl rfl

/-! ### Helpers for the entity-cursor claim -/

/-- Filtering with a strictly more selective predicate that excludes a
member satisfying the weaker one gives a strictly shorter list. -/
theorem length_filter_lt_of_mem {α : Type} (p q : α → Bool)
    (himp : ∀ x, q x = true → p x = true) (l : List α) (a : α)
    (ha : a ∈ l) (hpa : p a = true) (hqa : q a = false) :
    (l.filter q).length < (l.filter p).length := by
  induction l with
  | nil => exact absurd ha (List.not_mem_nil a)
  | cons x xs ih =>
    have hmono : (xs.filter q).length ≤ (xs.filter p).length := by
      rw [← List.countP_eq_length_filter, ← List.countP_eq_length_filter]
      exact List.countP_mono_left (fun y _ hy => himp y hy)
    rcases List.mem_cons.mp ha with heq | hmem
    · subst heq
      rw [List.filter_cons_of_pos hpa, List.filter_cons_of_neg (by simp [hqa])]
      simp only [List.length_cons]
      omega
    · have hlt := ih hmem
      by_cases hq : q x = true
      · have hp := himp x hq
        rw [List.filter_cons_of_pos hp, List.filter_cons_of_pos hq]
        simp only [List.length_cons]
        omega
      · have hq2 : ¬ (q x = true) := hq
        by_cases hp : p x = true
        · rw [List.filter_cons_of_pos hp, List.filter_cons_of_neg hq2]
          simp only [List.length_cons]
          omega
        · rw [List.filter_cons_of_neg hp, List.filter_cons_of_neg hq2]
          omega

/-- OR-ing MEDIA_ENT_ID_FLAG_NEXT onto an id below bit 31 adds 2^31. -/
theorem lor_next_flag (i : Nat) (h : i < 2 ^ 31) :
    i ||| media.MEDIA_ENT_ID_FLAG_NEXT = i + 2 ^ 31 := by
  have hm : media.MEDIA_ENT_ID_FLAG_NEXT = 1 <<< 31 := rfl
  rw [hm, Nat.lor_comm, shiftLeft_lor_add 1 i 31 h]
  omega

/-- A NEXT-flagged lookup on the list device is a find-first-greater scan. -/
theorem listDevice_next (fd : Int) (xs : List MediaEntityDesc) (i : Nat)
    (h : i < 2 ^ 31) :
    MediaEntityIter.desc (listDevice fd xs) (i ||| media.MEDIA_ENT_ID_FLAG_NEXT)
      = xs.find? (fun d => decide (i < d.id)) := by
  have hq : i ||| media.MEDIA_ENT_ID_FLAG_NEXT = i + 2 ^ 31 := lor_next_flag i h
  simp only [MediaEntityIter.desc, listDevice, hq]
  rw [if_pos (by omega : 2 ^ 31 ≤ i + 2 ^ 31)]
  have hmod : (i + 2 ^ 31) % 2 ^ 31 = i := by omega
  rw [hmod]
  cases hf : xs.find? (fun d => decide (i < d.id)) <;> simp

/-- A plain lookup on the list device is an exact-id scan. -/
theorem listDevice_exact (fd : Int) (xs : List MediaEntityDesc) (i : Nat)
    (h : i < 2 ^ 31) :
    MediaEntityIter.desc (listDevice fd xs) i
      = xs.find? (fun d => decide (d.id = i)) := by
  simp only [MediaEntityIter.desc, listDevice]
  rw [if_neg (by omega : ¬ 2 ^ 31 ≤ i)]
  cases hf : xs.find? (fun d => decide (d.id = i)) <;> simp

/-- Whenever the prefetched descriptor is present, next yields its decoded
entity, whatever the following lookup does. -/
theorem next_fst_of_desc_some (dev : EntityDevice) (version : Version)
    (s : IterState) (d : MediaEntityDesc) (h : s.desc = some d) :
    (MediaEntityIter.next dev version s).1
      = some (MediaEntity.from_desc version d) := by
  simp only [MediaEntityIter.next, h]
  cases MediaEntityIter.desc dev (s.id ||| media.MEDIA_ENT_ID_FLAG_NEXT) <;> simp

/-- One step of the cursor against the list device: an exhausted cursor
stays put yielding none; a live cursor yields its entity and either absorbs
a strictly larger id taken from the list (strictly shrinking the set of
still-greater ids) or ends the sequence. -/
theorem iter_step_analysis (fd : Int) (version : Version)
    (xs : List MediaEntityDesc) (hids : ∀ d ∈ xs, d.id < 2 ^ 31)
    (s : IterState) (hs : s.id < 2 ^ 31) :
    (s.desc = none → MediaEntityIter.next (listDevice fd xs) version s = (none, s)) ∧
    (∀ d, s.desc = some d →
      (∃ d2, d2 ∈ xs ∧ s.id < d2.id ∧ d2.id < 2 ^ 31 ∧
        MediaEntityIter.next (listDevice fd xs) version s
          = (some (MediaEntity.from_desc version d), ⟨d2.id, some d2⟩) ∧
        (xs.filter (fun x => decide (d2.id < x.id))).length
          < (xs.filter (fun x => decide (s.id < x.id))).length) ∨
      MediaEntityIter.next (listDevice fd xs) version s
        = (some (MediaEntity.from_desc version d), ⟨s.id, none⟩)) := by
  constructor
  · intro h
    simp [MediaEntityIter.next, h]
  · intro d hd
    have hnext := listDevice_next fd xs s.id hs
    cases hf : xs.find? (fun x => decide (s.id < x.id)) with
    | none =>
      right
      rw [hf] at hnext
      simp [MediaEntityIter.next, hd, hnext]
    | some d2 =>
      left
      rw [hf] at hnext
      have hmem := List.mem_of_find?_eq_some hf
      have hgt : s.id < d2.id := by
        have hpred := List.find?_some hf
        simpa using hpred
      refine ⟨d2, hmem, hgt, hids d2 hmem, ?_, ?_⟩
      · simp [MediaEntityIter.next, hd, hnext]
      · refine length_filter_lt_of_mem _ _ ?_ xs d2 hmem ?_ ?_
        · intro x hx
          have := of_decide_eq_true hx
          exact decide_eq_true (by omega)
        · exact decide_eq_true hgt
        · simp

/-- Cursor invariant against the list device: the absorbed id stays below
bit 31 and the prefetched descriptor, when present, carries exactly the
absorbed id. -/
theorem iter_inv (fd : Int) (version : Version) (xs : List MediaEntityDesc)
    (hids : ∀ d ∈ xs, d.id < 2 ^ 31) (i0 : Nat) (h0 : i0 < 2 ^ 31) :
    ∀ k,
      (MediaEntityIter.stateAfter (listDevice fd xs) version
        (MediaEntityIter.new (listDevice fd xs) i0) k).id < 2 ^ 31 ∧
      ∀ d, (MediaEntityIter.stateAfter (listDevice fd xs) version
            (MediaEntityIter.new (listDevice fd xs) i0) k).desc = some d →
        d.id = (MediaEntityIter.stateAfter (listDevice fd xs) version
            (MediaEntityIter.new (listDevice fd xs) i0) k).id := by
  intro k
  induction k with
  | zero =>
    constructor
    · exact h0
    · intro d hd
      have hex := listDevice_exact fd xs i0 h0
      have hd2 : xs.find? (fun x => decide (x.id = i0)) = some d := by
        rw [← hex]
        exact hd
      have hdi := List.find?_some hd2
      simpa using hdi
  | succ k ih =>
    obtain ⟨hlt, hdid⟩ := ih
    rcases hsd : (MediaEntityIter.stateAfter (listDevice fd xs) version
        (MediaEntityIter.new (listDevice fd xs) i0) k).desc with _ | d
    · have hnx := (iter_step_analysis fd version xs hids _ hlt).1 hsd
      constructor
      · simp only [MediaEntityIter.stateAfter, hnx]
        exact hlt
      · simp only [MediaEntityIter.stateAfter, hnx]
        exact hdid
    · rcases (iter_step_analysis fd version xs hids _ hlt).2 d hsd with
        ⟨d2, hmem, hgt, hlt2, hnx, hdec⟩ | hnx
      · constructor
        · simp only [MediaEntityIter.stateAfter, hnx]
          exact hlt2
        · simp only [MediaEntityIter.stateAfter, hnx]
          intro d' hd'
          injection hd' with h
          rw [← h]
      · constructor
        · simp only [MediaEntityIter.stateAfter, hnx]
          exact hlt
        · simp only [MediaEntityIter.stateAfter, hnx]
          intro d' hd'
          simp at hd'

/-- Cursor progress against the list device: either the cursor is exhausted
or the number of listed ids above the absorbed id, plus the number of steps
taken, is bounded by its initial value. -/
theorem iter_measure (fd : Int) (version : Version) (xs : List MediaEntityDesc)
    (hids : ∀ d ∈ xs, d.id < 2 ^ 31) (i0 : Nat) (h0 : i0 < 2 ^ 31) :
    ∀ k,
      (MediaEntityIter.stateAfter (listDevice fd xs) version
        (MediaEntityIter.new (listDevice fd xs) i0) k).desc = none ∨
      (xs.filter (fun x => decide ((MediaEntityIter.stateAfter (listDevice fd xs) version
          (MediaEntityIter.new (listDevice fd xs) i0) k).id < x.id))).length + k
        ≤ (xs.filter (fun x => decide (i0 < x.id))).length := by
  intro k
  induction k with
  | zero =>
    right
    have h : (MediaEntityIter.stateAfter (listDevice fd xs) version
        (MediaEntityIter.new (listDevice fd xs) i0) 0).id = i0 := rfl
    rw [h]
    omega
  | succ k ih =>
    have hlt := (iter_inv fd version xs hids i0 h0 k).1
    rcases hsd : (MediaEntityIter.stateAfter (listDevice fd xs) version
        (MediaEntityIter.new (listDevice fd xs) i0) k).desc with _ | d
    · have hnx := (iter_step_analysis fd version xs hids _ hlt).1 hsd
      left
      simp only [MediaEntityIter.stateAfter, hnx]
      exact hsd
    · rcases (iter_step_analysis fd version xs hids _ hlt).2 d hsd with
        ⟨d2, hmem, hgt, hlt2, hnx, hdec⟩ | hnx
      · rcases ih with hnone | hm
        · rw [hnone] at hsd
          simp at hsd
        · right
          simp only [MediaEntityIter.stateAfter, hnx]
          omega
      · left
        simp [MediaEntityIter.stateAfter, hnx]

/-- C7: against a fixed, non-mutating list-backed device that answers each
id|NEXT_FLAG lookup with the first entity of strictly greater id or a
lookup failure, consecutively yielded entity ids are strictly increasing,
and iteration terminates: from some step count on, next() yields None and
keeps yielding None. -/
theorem entity_iter_increasing_and_terminating :
    ∀ (fd : Int) (version : Version) (xs : List MediaEntityDesc) (i0 : Nat),
      (∀ d ∈ xs, d.id < 2 ^ 31) → i0 < 2 ^ 31 →
      (∀ k e1 e2,
        MediaEntityIter.yieldAt (listDevice fd xs) version
          (MediaEntityIter.new (listDevice fd xs) i0) k = some e1 →
        MediaEntityIter.yieldAt (listDevice fd xs) version
          (MediaEntityIter.new (listDevice fd xs) i0) (k + 1) = some e2 →
        e1.id < e2.id) ∧
      (∃ N, ∀ k, N ≤ k →
        MediaEntityIter.yieldAt (listDevice fd xs) version
          (MediaEntityIter.new (listDevice fd xs) i0) k = none) := by
  intro fd version xs i0 hids h0
  constructor
  · intro k e1 e2 hy1 hy2
    obtain ⟨hlt, hdid⟩ := iter_inv fd version xs hids i0 h0 k
    rcases hsd : (MediaEntityIter.stateAfter (listDevice fd xs) version
        (MediaEntityIter.new (listDevice fd xs) i0) k).desc with _ | d
    · have hnx := (iter_step_analysis fd version xs hids _ hlt).1 hsd
      simp only [MediaEntityIter.yieldAt, hnx] at hy1
      simp at hy1
    · rcases (iter_step_analysis fd version xs hids _ hlt).2 d hsd with
        ⟨d2, hmem, hgt, hlt2, hnx, hdec⟩ | hnx
      · simp only [MediaEntityIter.yieldAt, hnx, Option.some.injEq] at hy1
        have hS1 : MediaEntityIter.stateAfter (listDevice fd xs) version
            (MediaEntityIter.new (listDevice fd xs) i0) (k + 1)
            = ⟨d2.id, some d2⟩ := by
          simp only [MediaEntityIter.stateAfter, hnx]
        simp only [MediaEntityIter.yieldAt, hS1,
          next_fst_of_desc_some (listDevice fd xs) version ⟨d2.id, some d2⟩ d2 rfl,
          Option.some.injEq] at hy2
        have hd1 : e1.id = d.id := by
          rw [← hy1]
          simp [MediaEntity.from_desc]
        have hd2id : e2.id = d2.id := by
          rw [← hy2]
          simp [MediaEntity.from_desc]
        have hde : d.id = (MediaEntityIter.stateAfter (listDevice fd xs) version
            (MediaEntityIter.new (listDevice fd xs) i0) k).id := hdid d hsd
        omega
      · have hS1 : MediaEntityIter.stateAfter (listDevice fd xs) version
            (MediaEntityIter.new (listDevice fd xs) i0) (k + 1)
            = ⟨(MediaEntityIter.stateAfter (listDevice fd xs) version
                (MediaEntityIter.new (listDevice fd xs) i0) k).id, none⟩ := by
          simp only [MediaEntityIter.stateAfter, hnx]
        simp only [MediaEntityIter.yieldAt, hS1] at hy2
        simp [MediaEntityIter.next] at hy2
  · refine ⟨(xs.filter (fun x => decide (i0 < x.id))).length + 1, ?_⟩
    intro k hk
    rcases iter_measure fd version xs hids i0 h0 k with hnone | hm
    · have hlt := (iter_inv fd version xs hids i0 h0 k).1
      have hnx := (iter_step_analysis fd version xs hids _ hlt).1 hnone
      simp [MediaEntityIter.yieldAt, hnx]
    · exact absurd hm (by omega)

/-- C7 (witness): the theorem applied to a concrete two-entity device
(ids 1 and 5) starting from id 1. -/
theorem entity_iter_increasing_and_terminating_witness :
    (∀ d ∈ [sampleDesc, sampleDesc2], d.id < 2 ^ 31) ∧ (1 : Nat) < 2 ^ 31 ∧
    ((∀ k e1 e2,
        MediaEntityIter.yieldAt (listDevice 3 [sampleDesc, sampleDesc2]) v419
          (MediaEntityIter.new (listDevice 3 [sampleDesc, sampleDesc2]) 1) k = some e1 →
        MediaEntityIter.yieldAt (listDevice 3 [sampleDesc, sampleDesc2]) v419
          (MediaEntityIter.new (listDevice 3 [sampleDesc, sampleDesc2]) 1) (k + 1) = some e2 →
        e1.id < e2.id) ∧
     (∃ N, ∀ k, N ≤ k →
        MediaEntityIter.yieldAt (listDevice 3 [sampleDesc, sampleDesc2]) v419
          (MediaEntityIter.new (listDevice 3 [sampleDesc, sampleDesc2]) 1) k = none)) :=
  ⟨by decide, by decide,
   entity_iter_increasing_and_terminating 3 v419 [sampleDesc, sampleDesc2] 1
     (by decide) (by decide)⟩

end LinuxMedia
